import Mathlib

/-!
# Verification of `bezier/_implicitization.py`

Shallow embedding of the curve-implicitization helpers over exact rational
arithmetic.  Curve nodes (`N x 2` numpy arrays in the source) become
`List (ℚ × ℚ)`; Python exceptions become the `Except.error` branch of
`Except String`.

Embedded from the source:
* `_evaluate3`   — 6×6 modified-Sylvester determinant for degree-3 curves;
* `evaluate`     — degree dispatch for the implicit polynomial `f(x, y)`;
* `eval_intersection_polynomial` — `g(t) = f₁(x₂(t), y₂(t))`;
* `_to_power_basis11/12/13/22` and `to_power_basis` — inverse-Vandermonde
  reconstruction of the intersection-polynomial coefficients.

`_curve_helpers.evaluate_multi` is not part of this repository slice, so it is
modelled from the spec (Bernstein-basis evaluation of the curve position).
-/

namespace Implicitization

/-- Modelled from the spec: the external curve-evaluation capability
(`_curve_helpers.evaluate_multi`) evaluates a curve in Bernstein basis.
`bernstein_coord n i t cs` is `∑ⱼ C(n, i+j) t^(i+j) (1-t)^(n-i-j) cs[j]`,
the tail of the Bernstein sum starting at index `i`. -/
def bernstein_coord (n i : ℕ) (t : ℚ) : List ℚ → ℚ
  | [] => 0
  | c :: rest =>
      (n.choose i : ℚ) * t ^ i * (1 - t) ^ (n - i) * c +
        bernstein_coord n (i + 1) t rest

/-- Modelled from the spec: position of the curve with control points `nodes`
at parameter `t`, i.e. the Bernstein-basis (de Casteljau) evaluation
`B(t) = ∑ᵢ C(n,i) tⁱ (1-t)^(n-i) nodesᵢ` with `n = nodes.length - 1`. -/
def bernstein_point (nodes : List (ℚ × ℚ)) (t : ℚ) : ℚ × ℚ :=
  (bernstein_coord (nodes.length - 1) 0 t (nodes.map Prod.fst),
   bernstein_coord (nodes.length - 1) 0 t (nodes.map Prod.snd))

/-- Modelled from the spec: `_curve_helpers.evaluate_multi(nodes, ts)` returns
the sequence of curve positions at each parameter value in `ts`. -/
def evaluate_multi (nodes : List (ℚ × ℚ)) (ts : List ℚ) : List (ℚ × ℚ) :=
  ts.map (bernstein_point nodes)

/-- `_evaluate3(nodes, x_val, y_val)`: build `delta = nodes - (x_val, y_val)`
with rows 1 and 2 (0-indexed) scaled by 3, place the `4×2` block at
rows 0–3/cols 0–1, rows 1–4/cols 2–3 and rows 2–5/cols 4–5 of a zero-filled
`6×6` matrix, and return its determinant. -/
def evaluate3 (p0 p1 p2 p3 : ℚ × ℚ) (x_val y_val : ℚ) : ℚ :=
  let d0x := p0.1 - x_val
  let d0y := p0.2 - y_val
  let d1x := 3 * (p1.1 - x_val)
  let d1y := 3 * (p1.2 - y_val)
  let d2x := 3 * (p2.1 - x_val)
  let d2y := 3 * (p2.2 - y_val)
  let d3x := p3.1 - x_val
  let d3y := p3.2 - y_val
  Matrix.det
    !![d0x, d0y,   0,   0,   0,   0;
       d1x, d1y, d0x, d0y,   0,   0;
       d2x, d2y, d1x, d1y, d0x, d0y;
       d3x, d3y, d2x, d2y, d1x, d1y;
         0,   0, d3x, d3y, d2x, d2y;
         0,   0,   0,   0, d3x, d3y]

/-- `evaluate(nodes, x_val, y_val)`: evaluate the implicitized bivariate
polynomial containing the curve, dispatching on the node count.  A single
node raises `ValueError`, more than four nodes raises `NotImplementedError`;
both become `Except.error` with the source's message. -/
def evaluate (nodes : List (ℚ × ℚ)) (x_val y_val : ℚ) : Except String ℚ :=
  match nodes with
  | [_] => .error "A point cannot be implicitized"
  | [p0, p1] =>
      .ok ((p0.1 - x_val) * (p1.2 - y_val) - (p1.1 - x_val) * (p0.2 - y_val))
  | [p0, p1, p2] =>
      let val_a := p0.1 - x_val
      let val_b := 2 * (p1.1 - x_val)
      let val_c := p2.1 - x_val
      let val_d := p0.2 - y_val
      let val_e := 2 * (p1.2 - y_val)
      let val_f := p2.2 - y_val
      let sub1 := val_b * val_f - val_c * val_e
      let sub2 := val_a * val_f - val_c * val_d
      let sub_det_a := -val_e * sub1 + val_f * sub2
      let sub_det_d := val_b * sub1 - val_c * sub2
      .ok (val_a * sub_det_a + val_d * sub_det_d)
  | [p0, p1, p2, p3] => .ok (evaluate3 p0 p1 p2 p3 x_val y_val)
  | _ => .error "Only degrees 1 and 2 supported"

/-- `eval_intersection_polynomial(nodes1, nodes2, t)`: evaluate the curve
given by `nodes2` at parameter `t` (through the external curve-evaluation
capability) and plug the position into the implicitization of `nodes1`. -/
def eval_intersection_polynomial (nodes1 nodes2 : List (ℚ × ℚ)) (t : ℚ) :
    Except String ℚ :=
  match evaluate_multi nodes2 [t] with
  | [(x_val, y_val)] => evaluate nodes1 x_val y_val
  | _ => .error "evaluate_multi: expected a single point"

/-- `_to_power_basis11`: coefficients for a degree 1-1 pair, by sampling at
`t = 0, 1` and applying the inverse of the 2×2 Vandermonde matrix. -/
def to_power_basis11 (nodes1 nodes2 : List (ℚ × ℚ)) :
    Except String (List ℚ) :=
  match eval_intersection_polynomial nodes1 nodes2 0,
        eval_intersection_polynomial nodes1 nodes2 1 with
  | .ok val0, .ok val1 => .ok [val0, -val0 + val1]
  | .error e, _ => .error e
  | _, .error e => .error e

/-- `_to_power_basis12`: coefficients for a degree 1-2 pair, by sampling at
`t = 0, 1/2, 1` and applying the inverse of the 3×3 Vandermonde matrix. -/
def to_power_basis12 (nodes1 nodes2 : List (ℚ × ℚ)) :
    Except String (List ℚ) :=
  match eval_intersection_polynomial nodes1 nodes2 0,
        eval_intersection_polynomial nodes1 nodes2 (1 / 2),
        eval_intersection_polynomial nodes1 nodes2 1 with
  | .ok val0, .ok val1, .ok val2 =>
      .ok [val0,
           -3 * val0 + 4 * val1 - val2,
           2 * val0 - 4 * val1 + 2 * val2]
  | .error e, _, _ => .error e
  | _, .error e, _ => .error e
  | _, _, .error e => .error e

/-- `_to_power_basis13`: coefficients for a degree 1-3 pair, by sampling at
`t = 0, 1/4, 3/4, 1` and applying 3 times the inverse of the 4×4 Vandermonde
matrix (the division by 3 is skipped to avoid round-off). -/
def to_power_basis13 (nodes1 nodes2 : List (ℚ × ℚ)) :
    Except String (List ℚ) :=
  match eval_intersection_polynomial nodes1 nodes2 0,
        eval_intersection_polynomial nodes1 nodes2 (1 / 4),
        eval_intersection_polynomial nodes1 nodes2 (3 / 4),
        eval_intersection_polynomial nodes1 nodes2 1 with
  | .ok val0, .ok val1, .ok val2, .ok val3 =>
      .ok [3 * val0,
           -19 * val0 + 24 * val1 - 8 * val2 + 3 * val3,
           32 * val0 - 56 * val1 + 40 * val2 - 16 * val3,
           -16 * val0 + 32 * val1 - 32 * val2 + 16 * val3]
  | .error e, _, _, _ => .error e
  | _, .error e, _, _ => .error e
  | _, _, .error e, _ => .error e
  | _, _, _, .error e => .error e

/-- `_to_power_basis22`: coefficients for a degree 2-2 pair, by sampling at
`t = 0, 1/4, 1/2, 3/4, 1` and applying 3 times the inverse of the 5×5
Vandermonde matrix (the division by 3 is skipped to avoid round-off). -/
def to_power_basis22 (nodes1 nodes2 : List (ℚ × ℚ)) :
    Except String (List ℚ) :=
  match eval_intersection_polynomial nodes1 nodes2 0,
        eval_intersection_polynomial nodes1 nodes2 (1 / 4),
        eval_intersection_polynomial nodes1 nodes2 (1 / 2),
        eval_intersection_polynomial nodes1 nodes2 (3 / 4),
        eval_intersection_polynomial nodes1 nodes2 1 with
  | .ok val0, .ok val1, .ok val2, .ok val3, .ok val4 =>
      .ok [3 * val0,
           -25 * val0 + 48 * val1 - 36 * val2 + 16 * val3 - 3 * val4,
           70 * val0 - 208 * val1 + 228 * val2 - 112 * val3 + 22 * val4,
           -80 * val0 + 288 * val1 - 384 * val2 + 224 * val3 - 48 * val4,
           32 * val0 - 128 * val1 + 192 * val2 - 128 * val3 + 32 * val4]
  | .error e, _, _, _, _ => .error e
  | _, .error e, _, _, _ => .error e
  | _, _, .error e, _, _ => .error e
  | _, _, _, .error e, _ => .error e
  | _, _, _, _, .error e => .error e

/-- The `NotImplementedError` message raised by `to_power_basis`: it carries
the offending degree pair. -/
def unsupported_pair_message (num_nodes1 num_nodes2 : ℕ) : String :=
  "Degree 1 " ++ toString (num_nodes1 - 1) ++ " Degree2 " ++
    toString (num_nodes2 - 1) ++
    " Currently only supporting degree pairs 1-1, 1-2, 1-3 and 2-2"

/-- `to_power_basis(nodes1, nodes2)`: compute the coefficients of the
intersection polynomial, dispatching on the node counts; any pair outside
1-1, 1-2, 1-3, 2-2 raises `NotImplementedError` naming the degree pair. -/
def to_power_basis (nodes1 nodes2 : List (ℚ × ℚ)) :
    Except String (List ℚ) :=
  let num_nodes1 := nodes1.length
  let num_nodes2 := nodes2.length
  if num_nodes1 = 2 then
    if num_nodes2 = 2 then to_power_basis11 nodes1 nodes2
    else if num_nodes2 = 3 then to_power_basis12 nodes1 nodes2
    else if num_nodes2 = 4 then to_power_basis13 nodes1 nodes2
    else .error (unsupported_pair_message num_nodes1 num_nodes2)
  else if num_nodes1 = 3 then
    if num_nodes2 = 3 then to_power_basis22 nodes1 nodes2
    else .error (unsupported_pair_message num_nodes1 num_nodes2)
  else .error (unsupported_pair_message num_nodes1 num_nodes2)

/-- Horner evaluation of a coefficient list in ascending power order:
`horner [c0, c1, …] t = c0 + t*(c1 + t*(…))`. -/
def horner (coeffs : List ℚ) (t : ℚ) : ℚ :=
  coeffs.foldr (fun c acc => c + t * acc) 0

/-- The payload of `evaluate` on a two-node curve: the 2×2 determinant of
node-minus-query coordinates. -/
def lineEval (p0 p1 : ℚ × ℚ) (q : ℚ × ℚ) : ℚ :=
  (p0.1 - q.1) * (p1.2 - q.2) - (p1.1 - q.1) * (p0.2 - q.2)

/-- The payload of `evaluate` on a three-node curve: the reduced closed-form
sequence of the source's degree-2 branch. -/
def conicEval (p0 p1 p2 : ℚ × ℚ) (q : ℚ × ℚ) : ℚ :=
  let val_a := p0.1 - q.1
  let val_b := 2 * (p1.1 - q.1)
  let val_c := p2.1 - q.1
  let val_d := p0.2 - q.2
  let val_e := 2 * (p1.2 - q.2)
  let val_f := p2.2 - q.2
  let sub1 := val_b * val_f - val_c * val_e
  let sub2 := val_a * val_f - val_c * val_d
  let sub_det_a := -val_e * sub1 + val_f * sub2
  let sub_det_d := val_b * sub1 - val_c * sub2
  val_a * sub_det_a + val_d * sub_det_d

/-- The intersection polynomial `g(t) = f₁(x₂(t), y₂(t))` when the first
curve has two nodes, as a plain rational-valued function. -/
def lineIP (p0 p1 : ℚ × ℚ) (n2 : List (ℚ × ℚ)) (t : ℚ) : ℚ :=
  lineEval p0 p1 (bernstein_point n2 t)

/-- The intersection polynomial `g(t) = f₁(x₂(t), y₂(t))` when the first
curve has three nodes, as a plain rational-valued function. -/
def conicIP (p0 p1 p2 : ℚ × ℚ) (n2 : List (ℚ × ℚ)) (t : ℚ) : ℚ :=
  conicEval p0 p1 p2 (bernstein_point n2 t)

/-- The 6×6 matrix as the spec describes the degree-3 construction: `delta`
(nodes minus the query broadcast to all four rows, rows 1 and 2 scaled by 3)
placed at rows 0–3/cols 0–1, rows 1–4/cols 2–3, rows 2–5/cols 4–5 of an
otherwise all-zero matrix. -/
def sylvester3_spec (p0 p1 p2 p3 : ℚ × ℚ) (x_val y_val : ℚ) :
    Matrix (Fin 6) (Fin 6) ℚ :=
  let delta : ℕ → ℕ → ℚ := fun r c =>
    (if r = 1 ∨ r = 2 then (3 : ℚ) else 1) *
      ((if c = 0 then ([p0, p1, p2, p3].getD r (0, 0)).1
        else ([p0, p1, p2, p3].getD r (0, 0)).2) -
       (if c = 0 then x_val else y_val))
  Matrix.of fun i j : Fin 6 =>
    if (j : ℕ) / 2 ≤ (i : ℕ) ∧ (i : ℕ) ≤ (j : ℕ) / 2 + 3 then
      delta ((i : ℕ) - (j : ℕ) / 2) ((j : ℕ) % 2)
    else 0

/-! ## Reduction lemmas

Definitional unfoldings of the embedded functions on lists of known shape,
plus Bernstein-evaluation closed forms and determinant helpers. -/

theorem length_eq_four {α : Type*} {l : List α} :
    l.length = 4 ↔ ∃ a b c d, l = [a, b, c, d] := by
  cases l with
  | nil => simp
  | cons a l => simp [List.length_eq_three]

theorem evaluate_deg1 (p0 p1 : ℚ × ℚ) (x y : ℚ) :
    evaluate [p0, p1] x y = .ok (lineEval p0 p1 (x, y)) := rfl

theorem evaluate_deg2 (p0 p1 p2 : ℚ × ℚ) (x y : ℚ) :
    evaluate [p0, p1, p2] x y = .ok (conicEval p0 p1 p2 (x, y)) := rfl

theorem evaluate_deg3 (p0 p1 p2 p3 : ℚ × ℚ) (x y : ℚ) :
    evaluate [p0, p1, p2, p3] x y = .ok (evaluate3 p0 p1 p2 p3 x y) := rfl

theorem eval_ip_deg1 (p0 p1 : ℚ × ℚ) (n2 : List (ℚ × ℚ)) (t : ℚ) :
    eval_intersection_polynomial [p0, p1] n2 t = .ok (lineIP p0 p1 n2 t) := rfl

theorem eval_ip_deg2 (p0 p1 p2 : ℚ × ℚ) (n2 : List (ℚ × ℚ)) (t : ℚ) :
    eval_intersection_polynomial [p0, p1, p2] n2 t =
      .ok (conicIP p0 p1 p2 n2 t) := rfl

theorem tpb11_eq (p0 p1 q0 q1 : ℚ × ℚ) :
    to_power_basis [p0, p1] [q0, q1] =
      .ok [lineIP p0 p1 [q0, q1] 0,
           -(lineIP p0 p1 [q0, q1] 0) + lineIP p0 p1 [q0, q1] 1] := rfl

theorem tpb12_eq (p0 p1 q0 q1 q2 : ℚ × ℚ) :
    to_power_basis [p0, p1] [q0, q1, q2] =
      .ok [lineIP p0 p1 [q0, q1, q2] 0,
           -3 * lineIP p0 p1 [q0, q1, q2] 0 +
             4 * lineIP p0 p1 [q0, q1, q2] (1 / 2) - lineIP p0 p1 [q0, q1, q2] 1,
           2 * lineIP p0 p1 [q0, q1, q2] 0 -
             4 * lineIP p0 p1 [q0, q1, q2] (1 / 2) +
             2 * lineIP p0 p1 [q0, q1, q2] 1] := rfl

theorem tpb13_eq (p0 p1 q0 q1 q2 q3 : ℚ × ℚ) :
    to_power_basis [p0, p1] [q0, q1, q2, q3] =
      .ok [3 * lineIP p0 p1 [q0, q1, q2, q3] 0,
           -19 * lineIP p0 p1 [q0, q1, q2, q3] 0 +
             24 * lineIP p0 p1 [q0, q1, q2, q3] (1 / 4) -
             8 * lineIP p0 p1 [q0, q1, q2, q3] (3 / 4) +
             3 * lineIP p0 p1 [q0, q1, q2, q3] 1,
           32 * lineIP p0 p1 [q0, q1, q2, q3] 0 -
             56 * lineIP p0 p1 [q0, q1, q2, q3] (1 / 4) +
             40 * lineIP p0 p1 [q0, q1, q2, q3] (3 / 4) -
             16 * lineIP p0 p1 [q0, q1, q2, q3] 1,
           -16 * lineIP p0 p1 [q0, q1, q2, q3] 0 +
             32 * lineIP p0 p1 [q0, q1, q2, q3] (1 / 4) -
             32 * lineIP p0 p1 [q0, q1, q2, q3] (3 / 4) +
             16 * lineIP p0 p1 [q0, q1, q2, q3] 1] := rfl

theorem tpb22_eq (p0 p1 p2 q0 q1 q2 : ℚ × ℚ) :
    to_power_basis [p0, p1, p2] [q0, q1, q2] =
      .ok [3 * conicIP p0 p1 p2 [q0, q1, q2] 0,
           -25 * conicIP p0 p1 p2 [q0, q1, q2] 0 +
             48 * conicIP p0 p1 p2 [q0, q1, q2] (1 / 4) -
             36 * conicIP p0 p1 p2 [q0, q1, q2] (1 / 2) +
             16 * conicIP p0 p1 p2 [q0, q1, q2] (3 / 4) -
             3 * conicIP p0 p1 p2 [q0, q1, q2] 1,
           70 * conicIP p0 p1 p2 [q0, q1, q2] 0 -
             208 * conicIP p0 p1 p2 [q0, q1, q2] (1 / 4) +
             228 * conicIP p0 p1 p2 [q0, q1, q2] (1 / 2) -
             112 * conicIP p0 p1 p2 [q0, q1, q2] (3 / 4) +
             22 * conicIP p0 p1 p2 [q0, q1, q2] 1,
           -80 * conicIP p0 p1 p2 [q0, q1, q2] 0 +
             288 * conicIP p0 p1 p2 [q0, q1, q2] (1 / 4) -
             384 * conicIP p0 p1 p2 [q0, q1, q2] (1 / 2) +
             224 * conicIP p0 p1 p2 [q0, q1, q2] (3 / 4) -
             48 * conicIP p0 p1 p2 [q0, q1, q2] 1,
           32 * conicIP p0 p1 p2 [q0, q1, q2] 0 -
             128 * conicIP p0 p1 p2 [q0, q1, q2] (1 / 4) +
             192 * conicIP p0 p1 p2 [q0, q1, q2] (1 / 2) -
             128 * conicIP p0 p1 p2 [q0, q1, q2] (3 / 4) +
             32 * conicIP p0 p1 p2 [q0, q1, q2] 1] := rfl

theorem bernstein_point_two (q0 q1 : ℚ × ℚ) (t : ℚ) :
    bernstein_point [q0, q1] t =
      ((1 - t) * q0.1 + t * q1.1, (1 - t) * q0.2 + t * q1.2) := by
  simp [bernstein_point, bernstein_coord, Nat.choose, Prod.ext_iff]

theorem bernstein_point_three (q0 q1 q2 : ℚ × ℚ) (t : ℚ) :
    bernstein_point [q0, q1, q2] t =
      ((1 - t) ^ 2 * q0.1 + 2 * t * (1 - t) * q1.1 + t ^ 2 * q2.1,
       (1 - t) ^ 2 * q0.2 + 2 * t * (1 - t) * q1.2 + t ^ 2 * q2.2) := by
  simp [bernstein_point, bernstein_coord, Nat.choose, Prod.ext_iff]
  constructor <;> ring

theorem bernstein_point_four (q0 q1 q2 q3 : ℚ × ℚ) (t : ℚ) :
    bernstein_point [q0, q1, q2, q3] t =
      ((1 - t) ^ 3 * q0.1 + 3 * t * (1 - t) ^ 2 * q1.1 +
         3 * t ^ 2 * (1 - t) * q2.1 + t ^ 3 * q3.1,
       (1 - t) ^ 3 * q0.2 + 3 * t * (1 - t) ^ 2 * q1.2 +
         3 * t ^ 2 * (1 - t) * q2.2 + t ^ 3 * q3.2) := by
  simp [bernstein_point, bernstein_coord, Nat.choose, Prod.ext_iff]
  constructor <;> ring

theorem det_fin_four (A : Matrix (Fin 4) (Fin 4) ℚ) :
    A.det =
      A 0 0 * (A 1 1 * (A 2 2 * A 3 3 - A 2 3 * A 3 2)
             - A 1 2 * (A 2 1 * A 3 3 - A 2 3 * A 3 1)
             + A 1 3 * (A 2 1 * A 3 2 - A 2 2 * A 3 1))
    - A 0 1 * (A 1 0 * (A 2 2 * A 3 3 - A 2 3 * A 3 2)
             - A 1 2 * (A 2 0 * A 3 3 - A 2 3 * A 3 0)
             + A 1 3 * (A 2 0 * A 3 2 - A 2 2 * A 3 0))
    + A 0 2 * (A 1 0 * (A 2 1 * A 3 3 - A 2 3 * A 3 1)
             - A 1 1 * (A 2 0 * A 3 3 - A 2 3 * A 3 0)
             + A 1 3 * (A 2 0 * A 3 1 - A 2 1 * A 3 0))
    - A 0 3 * (A 1 0 * (A 2 1 * A 3 2 - A 2 2 * A 3 1)
             - A 1 1 * (A 2 0 * A 3 2 - A 2 2 * A 3 0)
             + A 1 2 * (A 2 0 * A 3 1 - A 2 1 * A 3 0)) := by
  rw [Matrix.det_succ_row_zero]
  norm_num [Fin.sum_univ_succ, Matrix.det_fin_three, Fin.succAbove, Fin.lt_def,
    Matrix.submatrix_apply, show (Fin.succ 2 : Fin 4) = 3 from rfl,
    show Fin.castSucc (2 : Fin 3) = (2 : Fin 4) from rfl]
  ring

theorem det_band_zero (d0x d0y d1x d1y d2x d2y d3x d3y t : ℚ)
    (hx : (1 - t) ^ 3 * d0x + t * (1 - t) ^ 2 * d1x +
            t ^ 2 * (1 - t) * d2x + t ^ 3 * d3x = 0)
    (hy : (1 - t) ^ 3 * d0y + t * (1 - t) ^ 2 * d1y +
            t ^ 2 * (1 - t) * d2y + t ^ 3 * d3y = 0) :
    Matrix.det
      !![d0x, d0y,   0,   0,   0,   0;
         d1x, d1y, d0x, d0y,   0,   0;
         d2x, d2y, d1x, d1y, d0x, d0y;
         d3x, d3y, d2x, d2y, d1x, d1y;
           0,   0, d3x, d3y, d2x, d2y;
           0,   0,   0,   0, d3x, d3y] = 0 := by
  refine Matrix.exists_vecMul_eq_zero_iff.mp ⟨![(1 - t) ^ 5, t * (1 - t) ^ 4,
      t ^ 2 * (1 - t) ^ 3, t ^ 3 * (1 - t) ^ 2, t ^ 4 * (1 - t), t ^ 5], ?_, ?_⟩
  · intro hv
    simp only [Matrix.cons_eq_zero_iff] at hv
    rcases eq_or_ne t 0 with rfl | ht
    · have h0 := hv.1
      norm_num at h0
    · exact ht ((pow_eq_zero_iff (by norm_num : (5 : ℕ) ≠ 0)).mp hv.2.2.2.2.2.1)
  · simp only [Matrix.cons_vecMul_cons, Matrix.empty_vecMul, Matrix.smul_cons,
      smul_eq_mul, Matrix.smul_empty, Matrix.cons_add_cons,
      Matrix.empty_add_empty, add_zero, Matrix.cons_eq_zero_iff,
      show (![] : Fin 0 → ℚ) = 0 from Subsingleton.elim _ _, and_true]
    refine ⟨?_, ?_, ?_, ?_, ?_, ?_⟩
    · linear_combination (1 - t) ^ 2 * hx
    · linear_combination (1 - t) ^ 2 * hy
    · linear_combination t * (1 - t) * hx
    · linear_combination t * (1 - t) * hy
    · linear_combination t ^ 2 * hx
    · linear_combination t ^ 2 * hy

theorem horner_ip11 (p0 p1 q0 q1 : ℚ × ℚ) (t : ℚ) :
    horner [lineIP p0 p1 [q0, q1] 0,
            -(lineIP p0 p1 [q0, q1] 0) + lineIP p0 p1 [q0, q1] 1] t =
      lineIP p0 p1 [q0, q1] t := by
  simp only [horner, List.foldr, lineIP, lineEval, bernstein_point_two]
  ring

theorem horner_ip12 (p0 p1 q0 q1 q2 : ℚ × ℚ) (t : ℚ) :
    horner [lineIP p0 p1 [q0, q1, q2] 0,
            -3 * lineIP p0 p1 [q0, q1, q2] 0 +
              4 * lineIP p0 p1 [q0, q1, q2] (1 / 2) - lineIP p0 p1 [q0, q1, q2] 1,
            2 * lineIP p0 p1 [q0, q1, q2] 0 -
              4 * lineIP p0 p1 [q0, q1, q2] (1 / 2) +
              2 * lineIP p0 p1 [q0, q1, q2] 1] t =
      lineIP p0 p1 [q0, q1, q2] t := by
  simp only [horner, List.foldr, lineIP, lineEval, bernstein_point_three]
  ring

theorem horner_ip13 (p0 p1 q0 q1 q2 q3 : ℚ × ℚ) (t : ℚ) :
    horner [3 * lineIP p0 p1 [q0, q1, q2, q3] 0,
            -19 * lineIP p0 p1 [q0, q1, q2, q3] 0 +
              24 * lineIP p0 p1 [q0, q1, q2, q3] (1 / 4) -
              8 * lineIP p0 p1 [q0, q1, q2, q3] (3 / 4) +
              3 * lineIP p0 p1 [q0, q1, q2, q3] 1,
            32 * lineIP p0 p1 [q0, q1, q2, q3] 0 -
              56 * lineIP p0 p1 [q0, q1, q2, q3] (1 / 4) +
              40 * lineIP p0 p1 [q0, q1, q2, q3] (3 / 4) -
              16 * lineIP p0 p1 [q0, q1, q2, q3] 1,
            -16 * lineIP p0 p1 [q0, q1, q2, q3] 0 +
              32 * lineIP p0 p1 [q0, q1, q2, q3] (1 / 4) -
              32 * lineIP p0 p1 [q0, q1, q2, q3] (3 / 4) +
              16 * lineIP p0 p1 [q0, q1, q2, q3] 1] t =
      3 * lineIP p0 p1 [q0, q1, q2, q3] t := by
  simp only [horner, List.foldr, lineIP, lineEval, bernstein_point_four]
  ring

theorem horner_ip22 (p0 p1 p2 q0 q1 q2 : ℚ × ℚ) (t : ℚ) :
    horner [3 * conicIP p0 p1 p2 [q0, q1, q2] 0,
            -25 * conicIP p0 p1 p2 [q0, q1, q2] 0 +
              48 * conicIP p0 p1 p2 [q0, q1, q2] (1 / 4) -
              36 * conicIP p0 p1 p2 [q0, q1, q2] (1 / 2) +
              16 * conicIP p0 p1 p2 [q0, q1, q2] (3 / 4) -
              3 * conicIP p0 p1 p2 [q0, q1, q2] 1,
            70 * conicIP p0 p1 p2 [q0, q1, q2] 0 -
              208 * conicIP p0 p1 p2 [q0, q1, q2] (1 / 4) +
              228 * conicIP p0 p1 p2 [q0, q1, q2] (1 / 2) -
              112 * conicIP p0 p1 p2 [q0, q1, q2] (3 / 4) +
              22 * conicIP p0 p1 p2 [q0, q1, q2] 1,
            -80 * conicIP p0 p1 p2 [q0, q1, q2] 0 +
              288 * conicIP p0 p1 p2 [q0, q1, q2] (1 / 4) -
              384 * conicIP p0 p1 p2 [q0, q1, q2] (1 / 2) +
              224 * conicIP p0 p1 p2 [q0, q1, q2] (3 / 4) -
              48 * conicIP p0 p1 p2 [q0, q1, q2] 1,
            32 * conicIP p0 p1 p2 [q0, q1, q2] 0 -
              128 * conicIP p0 p1 p2 [q0, q1, q2] (1 / 4) +
              192 * conicIP p0 p1 p2 [q0, q1, q2] (1 / 2) -
              128 * conicIP p0 p1 p2 [q0, q1, q2] (3 / 4) +
              32 * conicIP p0 p1 p2 [q0, q1, q2] 1] t =
      3 * conicIP p0 p1 p2 [q0, q1, q2] t := by
  simp only [horner, List.foldr, conicIP, conicEval, bernstein_point_three]
  ring

set_option maxHeartbeats 1600000 in
/-- The band-placement description of the spec, written out as the concrete
6×6 matrix literal that `_evaluate3` builds. -/
theorem sylvester3_spec_eq_literal (p0 p1 p2 p3 : ℚ × ℚ) (x y : ℚ) :
    sylvester3_spec p0 p1 p2 p3 x y =
      !![p0.1 - x, p0.2 - y, 0, 0, 0, 0;
         3 * (p1.1 - x), 3 * (p1.2 - y), p0.1 - x, p0.2 - y, 0, 0;
         3 * (p2.1 - x), 3 * (p2.2 - y), 3 * (p1.1 - x), 3 * (p1.2 - y),
           p0.1 - x, p0.2 - y;
         p3.1 - x, p3.2 - y, 3 * (p2.1 - x), 3 * (p2.2 - y),
           3 * (p1.1 - x), 3 * (p1.2 - y);
         0, 0, p3.1 - x, p3.2 - y, 3 * (p2.1 - x), 3 * (p2.2 - y);
         0, 0, 0, 0, p3.1 - x, p3.2 - y] := by
  ext i j
  fin_cases i <;> fin_cases j <;>
    norm_num [sylvester3_spec, Matrix.of_apply]

/-! ## Claim theorems -/

/-- Claim C4: for every 4×2 node array and query point, `evaluate` returns the
determinant of the 6×6 matrix obtained by placing `delta` (nodes minus the
query broadcast to all four rows, rows 1 and 2 scaled by 3) at rows 0–3 /
cols 0–1, rows 1–4 / cols 2–3 and rows 2–5 / cols 4–5 of an otherwise
all-zero matrix. -/
theorem evaluate_deg3_sylvester_structure (p0 p1 p2 p3 : ℚ × ℚ) (x y : ℚ) :
    evaluate [p0, p1, p2, p3] x y =
      Except.ok (sylvester3_spec p0 p1 p2 p3 x y).det := by
  rw [evaluate_deg3, evaluate3, sylvester3_spec_eq_literal]

/-- Claim C5: on a 3×2 node array the reduced closed-form sequence computed by
`evaluate` equals the determinant of the 4×4 modified Sylvester matrix with
rows `[a,b,c,0]`, `[0,a,b,c]`, `[d,e,f,0]`, `[0,d,e,f]` where
`a,b,c = (x0−x, 2(x1−x), x2−x)` and `d,e,f = (y0−y, 2(y1−y), y2−y)`. -/
theorem evaluate_deg2_sylvester_det (p0 p1 p2 : ℚ × ℚ) (x y : ℚ) :
    evaluate [p0, p1, p2] x y =
      Except.ok (Matrix.det
        !![p0.1 - x, 2 * (p1.1 - x), p2.1 - x, 0;
           0, p0.1 - x, 2 * (p1.1 - x), p2.1 - x;
           p0.2 - y, 2 * (p1.2 - y), p2.2 - y, 0;
           0, p0.2 - y, 2 * (p1.2 - y), p2.2 - y]) := by
  rw [evaluate_deg2, det_fin_four]
  simp [conicEval]
  ring

/-- Claim C9: for the crossing lines `[[0,0],[1,1]]` and `[[0,1],[1,0]]`,
`to_power_basis` returns exactly the two coefficients `[1, -2]`, a degree-1
polynomial with nonzero leading coefficient whose unique root
`-c0/c1 = 1/2`. -/
theorem to_power_basis_crossing_lines :
    to_power_basis [((0 : ℚ), (0 : ℚ)), (1, 1)] [((0 : ℚ), (1 : ℚ)), (1, 0)] =
        Except.ok [1, -2] ∧
      (-2 : ℚ) ≠ 0 ∧ -((1 : ℚ) / (-2)) = 1 / 2 ∧
      horner [1, -2] (1 / 2) = 0 := by
  refine ⟨?_, by norm_num, by norm_num, by norm_num [horner]⟩
  rw [tpb11_eq]
  norm_num [lineIP, lineEval, bernstein_point_two]

/-- Claim C1: for a curve of 2, 3 or 4 nodes and any `t ∈ [0,1]`, the
implicit polynomial vanishes at the curve's own position: if `(x, y)` is the
Bernstein evaluation of the nodes at `t`, then `evaluate nodes x y = 0`. -/
theorem evaluate_vanishes_on_curve (nodes : List (ℚ × ℚ)) (t x y : ℚ)
    (hlen : nodes.length = 2 ∨ nodes.length = 3 ∨ nodes.length = 4)
    (ht0 : 0 ≤ t) (ht1 : t ≤ 1)
    (hpos : bernstein_point nodes t = (x, y)) :
    evaluate nodes x y = Except.ok 0 := by
  rcases hlen with h | h | h
  · obtain ⟨p0, p1, rfl⟩ := List.length_eq_two.mp h
    rw [bernstein_point_two, Prod.mk.injEq] at hpos
    obtain ⟨hx, hy⟩ := hpos
    subst hx; subst hy
    rw [evaluate_deg1]
    congr 1
    simp only [lineEval]
    ring
  · obtain ⟨p0, p1, p2, rfl⟩ := List.length_eq_three.mp h
    rw [bernstein_point_three, Prod.mk.injEq] at hpos
    obtain ⟨hx, hy⟩ := hpos
    subst hx; subst hy
    rw [evaluate_deg2]
    congr 1
    simp only [conicEval]
    ring
  · obtain ⟨p0, p1, p2, p3, rfl⟩ := length_eq_four.mp h
    rw [bernstein_point_four, Prod.mk.injEq] at hpos
    obtain ⟨hx, hy⟩ := hpos
    subst hx; subst hy
    rw [evaluate_deg3]
    congr 1
    rw [evaluate3]
    exact det_band_zero _ _ _ _ _ _ _ _ t (by ring) (by ring)

/-- Witness for C1 at the segment `[(0,0), (2,2)]`, `t = 1/2`,
query `(1, 1)`. -/
theorem evaluate_vanishes_on_curve_witness :
    (([((0 : ℚ), (0 : ℚ)), (2, 2)] : List (ℚ × ℚ)).length = 2 ∧
      (0 : ℚ) ≤ 1 / 2 ∧ (1 / 2 : ℚ) ≤ 1 ∧
      bernstein_point [((0 : ℚ), (0 : ℚ)), (2, 2)] (1 / 2) = (1, 1)) ∧
    evaluate [((0 : ℚ), (0 : ℚ)), (2, 2)] 1 1 = Except.ok 0 :=
  ⟨⟨rfl, by norm_num, by norm_num,
      by rw [bernstein_point_two]; norm_num [Prod.ext_iff]⟩,
   evaluate_vanishes_on_curve [((0 : ℚ), (0 : ℚ)), (2, 2)] (1 / 2) 1 1
     (Or.inl rfl) (by norm_num) (by norm_num)
     (by rw [bernstein_point_two]; norm_num [Prod.ext_iff])⟩

/-- Claim C10: `evaluate` is translation-invariant for 2, 3 or 4 nodes:
shifting every node and the query point by the same offset leaves the value
unchanged, since every branch uses only node-minus-query differences. -/
theorem evaluate_translation_invariant (nodes : List (ℚ × ℚ))
    (x y dx dy : ℚ)
    (hlen : nodes.length = 2 ∨ nodes.length = 3 ∨ nodes.length = 4) :
    evaluate (nodes.map fun p => (p.1 + dx, p.2 + dy)) (x + dx) (y + dy) =
      evaluate nodes x y := by
  rcases hlen with h | h | h
  · obtain ⟨p0, p1, rfl⟩ := List.length_eq_two.mp h
    simp only [List.map_cons, List.map_nil]
    rw [evaluate_deg1, evaluate_deg1]
    congr 1
    simp only [lineEval]
    ring
  · obtain ⟨p0, p1, p2, rfl⟩ := List.length_eq_three.mp h
    simp only [List.map_cons, List.map_nil]
    rw [evaluate_deg2, evaluate_deg2]
    congr 1
    simp only [conicEval]
    ring
  · obtain ⟨p0, p1, p2, p3, rfl⟩ := length_eq_four.mp h
    simp only [List.map_cons, List.map_nil]
    rw [evaluate_deg3, evaluate_deg3]
    congr 1
    rw [evaluate3, evaluate3]
    congr 1
    ext i j
    fin_cases i <;> fin_cases j <;> (simp; try ring)

/-- Witness for C10: the segment `[(0,0), (1,1)]` shifted by `(1, 2)`. -/
theorem evaluate_translation_invariant_witness :
    evaluate (([((0 : ℚ), (0 : ℚ)), (1, 1)] : List (ℚ × ℚ)).map
        fun p => (p.1 + 1, p.2 + 2)) (0 + 1) (0 + 2) =
      evaluate [((0 : ℚ), (0 : ℚ)), (1, 1)] 0 0 :=
  evaluate_translation_invariant [((0 : ℚ), (0 : ℚ)), (1, 1)] 0 0 1 2
    (Or.inl rfl)

/-- Claim C3: for degree pairs 1-3 and 2-2 the returned coefficients are
exactly 3 times the intersection polynomial: Horner evaluation at any `t`
equals `3 * eval_intersection_polynomial nodes1 nodes2 t`, so the roots of
the returned polynomial coincide with those of the intersection
polynomial. -/
theorem to_power_basis_triple_scale :
    (∀ (p0 p1 q0 q1 q2 q3 : ℚ × ℚ) (t : ℚ),
      ∃ cs v, to_power_basis [p0, p1] [q0, q1, q2, q3] = Except.ok cs ∧
        eval_intersection_polynomial [p0, p1] [q0, q1, q2, q3] t =
          Except.ok v ∧
        horner cs t = 3 * v ∧ (horner cs t = 0 ↔ v = 0)) ∧
    (∀ (p0 p1 p2 q0 q1 q2 : ℚ × ℚ) (t : ℚ),
      ∃ cs v, to_power_basis [p0, p1, p2] [q0, q1, q2] = Except.ok cs ∧
        eval_intersection_polynomial [p0, p1, p2] [q0, q1, q2] t =
          Except.ok v ∧
        horner cs t = 3 * v ∧ (horner cs t = 0 ↔ v = 0)) := by
  constructor
  · intro p0 p1 q0 q1 q2 q3 t
    refine ⟨_, _, tpb13_eq p0 p1 q0 q1 q2 q3, eval_ip_deg1 p0 p1 _ t,
      horner_ip13 p0 p1 q0 q1 q2 q3 t, ?_⟩
    rw [horner_ip13 p0 p1 q0 q1 q2 q3 t, mul_eq_zero]
    norm_num
  · intro p0 p1 p2 q0 q1 q2 t
    refine ⟨_, _, tpb22_eq p0 p1 p2 q0 q1 q2, eval_ip_deg2 p0 p1 p2 _ t,
      horner_ip22 p0 p1 p2 q0 q1 q2 t, ?_⟩
    rw [horner_ip22 p0 p1 p2 q0 q1 q2 t, mul_eq_zero]
    norm_num

/-- Counterexample to claim C2 as stated: for the 1-3 pair below, Horner
evaluation of the returned coefficients at the sample `t = 0` gives `3`,
while the sampled value of the intersection polynomial there is `1`. -/
theorem to_power_basis_roundtrip_counterexample :
    to_power_basis [((0 : ℚ), (0 : ℚ)), (1, 1)]
        [((0 : ℚ), (1 : ℚ)), (1, 1), (2, 1), (3, 1)] =
        Except.ok [3, -9, 0, 0] ∧
      eval_intersection_polynomial [((0 : ℚ), (0 : ℚ)), (1, 1)]
          [((0 : ℚ), (1 : ℚ)), (1, 1), (2, 1), (3, 1)] 0 = Except.ok 1 ∧
      horner [(3 : ℚ), -9, 0, 0] 0 ≠ 1 := by
  refine ⟨?_, ?_, by norm_num [horner]⟩
  · rw [tpb13_eq]
    norm_num [lineIP, lineEval, bernstein_point_four]
  · rw [eval_ip_deg1]
    norm_num [lineIP, lineEval, bernstein_point_four]

/-- Claim C2 (amended): Horner evaluation of the `to_power_basis`
coefficients at each of the pair's sample parameters reproduces the sampled
intersection-polynomial value exactly for pairs 1-1 and 1-2, and reproduces
exactly 3 times the sampled value for pairs 1-3 and 2-2. -/
theorem to_power_basis_roundtrip_scaled :
    (∀ (p0 p1 q0 q1 : ℚ × ℚ) (t : ℚ), t = 0 ∨ t = 1 →
      ∃ cs v, to_power_basis [p0, p1] [q0, q1] = Except.ok cs ∧
        eval_intersection_polynomial [p0, p1] [q0, q1] t = Except.ok v ∧
        horner cs t = v) ∧
    (∀ (p0 p1 q0 q1 q2 : ℚ × ℚ) (t : ℚ), t = 0 ∨ t = 1 / 2 ∨ t = 1 →
      ∃ cs v, to_power_basis [p0, p1] [q0, q1, q2] = Except.ok cs ∧
        eval_intersection_polynomial [p0, p1] [q0, q1, q2] t = Except.ok v ∧
        horner cs t = v) ∧
    (∀ (p0 p1 q0 q1 q2 q3 : ℚ × ℚ) (t : ℚ),
      t = 0 ∨ t = 1 / 4 ∨ t = 3 / 4 ∨ t = 1 →
      ∃ cs v, to_power_basis [p0, p1] [q0, q1, q2, q3] = Except.ok cs ∧
        eval_intersection_polynomial [p0, p1] [q0, q1, q2, q3] t =
          Except.ok v ∧
        horner cs t = 3 * v) ∧
    (∀ (p0 p1 p2 q0 q1 q2 : ℚ × ℚ) (t : ℚ),
      t = 0 ∨ t = 1 / 4 ∨ t = 1 / 2 ∨ t = 3 / 4 ∨ t = 1 →
      ∃ cs v, to_power_basis [p0, p1, p2] [q0, q1, q2] = Except.ok cs ∧
        eval_intersection_polynomial [p0, p1, p2] [q0, q1, q2] t =
          Except.ok v ∧
        horner cs t = 3 * v) := by
  refine ⟨?_, ?_, ?_, ?_⟩
  · intro p0 p1 q0 q1 t _
    exact ⟨_, _, tpb11_eq p0 p1 q0 q1, eval_ip_deg1 p0 p1 _ t,
      horner_ip11 p0 p1 q0 q1 t⟩
  · intro p0 p1 q0 q1 q2 t _
    exact ⟨_, _, tpb12_eq p0 p1 q0 q1 q2, eval_ip_deg1 p0 p1 _ t,
      horner_ip12 p0 p1 q0 q1 q2 t⟩
  · intro p0 p1 q0 q1 q2 q3 t _
    exact ⟨_, _, tpb13_eq p0 p1 q0 q1 q2 q3, eval_ip_deg1 p0 p1 _ t,
      horner_ip13 p0 p1 q0 q1 q2 q3 t⟩
  · intro p0 p1 p2 q0 q1 q2 t _
    exact ⟨_, _, tpb22_eq p0 p1 p2 q0 q1 q2, eval_ip_deg2 p0 p1 p2 _ t,
      horner_ip22 p0 p1 p2 q0 q1 q2 t⟩

/-- Witness for C2 (amended) on the 1-1 pair of crossing segments at the
sample `t = 0`. -/
theorem to_power_basis_roundtrip_scaled_witness :
    ((0 : ℚ) = 0 ∨ (0 : ℚ) = 1) ∧
    ∃ cs v,
      to_power_basis [((0 : ℚ), (0 : ℚ)), (1, 1)]
          [((0 : ℚ), (1 : ℚ)), (1, 0)] = Except.ok cs ∧
        eval_intersection_polynomial [((0 : ℚ), (0 : ℚ)), (1, 1)]
            [((0 : ℚ), (1 : ℚ)), (1, 0)] 0 = Except.ok v ∧
        horner cs 0 = v :=
  ⟨Or.inl rfl,
   to_power_basis_roundtrip_scaled.1 (0, 0) (1, 1) (0, 1) (1, 0) 0
     (Or.inl rfl)⟩

/-- On every supported node-count pair, `to_power_basis` succeeds and the
coefficient count is the Bézout bound `deg1·deg2 + 1` (helper shared by the
length and error-handling claims). -/
theorem to_power_basis_ok_of_supported (nodes1 nodes2 : List (ℚ × ℚ))
    (h : (nodes1.length = 2 ∧
            (nodes2.length = 2 ∨ nodes2.length = 3 ∨ nodes2.length = 4)) ∨
         (nodes1.length = 3 ∧ nodes2.length = 3)) :
    ∃ cs, to_power_basis nodes1 nodes2 = Except.ok cs ∧
      cs.length = (nodes1.length - 1) * (nodes2.length - 1) + 1 := by
  rcases h with ⟨h1, h2 | h2 | h2⟩ | ⟨h1, h2⟩
  · obtain ⟨p0, p1, rfl⟩ := List.length_eq_two.mp h1
    obtain ⟨q0, q1, rfl⟩ := List.length_eq_two.mp h2
    exact ⟨_, tpb11_eq p0 p1 q0 q1, rfl⟩
  · obtain ⟨p0, p1, rfl⟩ := List.length_eq_two.mp h1
    obtain ⟨q0, q1, q2, rfl⟩ := List.length_eq_three.mp h2
    exact ⟨_, tpb12_eq p0 p1 q0 q1 q2, rfl⟩
  · obtain ⟨p0, p1, rfl⟩ := List.length_eq_two.mp h1
    obtain ⟨q0, q1, q2, q3, rfl⟩ := length_eq_four.mp h2
    exact ⟨_, tpb13_eq p0 p1 q0 q1 q2 q3, rfl⟩
  · obtain ⟨p0, p1, p2, rfl⟩ := List.length_eq_three.mp h1
    obtain ⟨q0, q1, q2, rfl⟩ := List.length_eq_three.mp h2
    exact ⟨_, tpb22_eq p0 p1 p2 q0 q1 q2, rfl⟩

/-- Claim C6: on every supported degree pair, `to_power_basis` returns
`deg1·deg2 + 1` coefficients: 2 for pair (1,1), 3 for (1,2), 4 for (1,3)
and 5 for (2,2). -/
theorem to_power_basis_length (nodes1 nodes2 : List (ℚ × ℚ))
    (h : (nodes1.length = 2 ∧
            (nodes2.length = 2 ∨ nodes2.length = 3 ∨ nodes2.length = 4)) ∨
         (nodes1.length = 3 ∧ nodes2.length = 3)) :
    ∃ cs, to_power_basis nodes1 nodes2 = Except.ok cs ∧
      cs.length = (nodes1.length - 1) * (nodes2.length - 1) + 1 :=
  to_power_basis_ok_of_supported nodes1 nodes2 h

/-- Witness for C6 on the (1,1) pair of crossing segments. -/
theorem to_power_basis_length_witness :
    ((([((0 : ℚ), (0 : ℚ)), (1, 1)] : List (ℚ × ℚ)).length = 2 ∧
        (([((0 : ℚ), (1 : ℚ)), (1, 0)] : List (ℚ × ℚ)).length = 2 ∨
          ([((0 : ℚ), (1 : ℚ)), (1, 0)] : List (ℚ × ℚ)).length = 3 ∨
          ([((0 : ℚ), (1 : ℚ)), (1, 0)] : List (ℚ × ℚ)).length = 4)) ∨
      (([((0 : ℚ), (0 : ℚ)), (1, 1)] : List (ℚ × ℚ)).length = 3 ∧
        ([((0 : ℚ), (1 : ℚ)), (1, 0)] : List (ℚ × ℚ)).length = 3)) ∧
    ∃ cs,
      to_power_basis [((0 : ℚ), (0 : ℚ)), (1, 1)]
          [((0 : ℚ), (1 : ℚ)), (1, 0)] = Except.ok cs ∧
        cs.length = 2 :=
  ⟨Or.inl ⟨rfl, Or.inl rfl⟩,
   to_power_basis_length [((0 : ℚ), (0 : ℚ)), (1, 1)]
     [((0 : ℚ), (1 : ℚ)), (1, 0)] (Or.inl ⟨rfl, Or.inl rfl⟩)⟩

/-- Counterexample to claim C7 as stated: with five nodes (degree 4) the
raised message is the fixed string `"Only degrees 1 and 2 supported"`, which
does not name the unsupported degree (it does not even contain the
character `4`). -/
theorem evaluate_error_message_counterexample :
    evaluate [((0 : ℚ), (0 : ℚ)), (1, 1), (2, 2), (3, 3), (4, 4)] 0 0 =
        Except.error "Only degrees 1 and 2 supported" ∧
      ¬ ('4' ∈ "Only degrees 1 and 2 supported".data) :=
  ⟨rfl, by decide⟩

/-- Claim C7 (amended): `evaluate` fails exactly on degenerate or
unsupported node counts — a single node gives the degenerate-input error,
2–4 nodes succeed, and five or more nodes give the fixed "not implemented"
message `"Only degrees 1 and 2 supported"`, which does not name the
offending degree. -/
theorem evaluate_error_conditions (nodes : List (ℚ × ℚ)) (x y : ℚ) :
    (nodes.length = 1 →
      evaluate nodes x y = Except.error "A point cannot be implicitized") ∧
    ((nodes.length = 2 ∨ nodes.length = 3 ∨ nodes.length = 4) →
      ∃ v, evaluate nodes x y = Except.ok v) ∧
    (5 ≤ nodes.length →
      evaluate nodes x y = Except.error "Only degrees 1 and 2 supported") := by
  refine ⟨?_, ?_, ?_⟩
  · intro h
    obtain ⟨a, rfl⟩ := List.length_eq_one.mp h
    rfl
  · rintro (h | h | h)
    · obtain ⟨p0, p1, rfl⟩ := List.length_eq_two.mp h
      exact ⟨_, rfl⟩
    · obtain ⟨p0, p1, p2, rfl⟩ := List.length_eq_three.mp h
      exact ⟨_, rfl⟩
    · obtain ⟨p0, p1, p2, p3, rfl⟩ := length_eq_four.mp h
      exact ⟨_, rfl⟩
  · intro h
    rcases nodes with _ | ⟨a, _ | ⟨b, _ | ⟨c, _ | ⟨d, _ | ⟨e, l⟩⟩⟩⟩⟩
    · simp at h
    · simp at h
    · simp at h
    · simp at h
    · simp at h
    · rfl

/-- Witness for C7 (amended) on a two-node curve. -/
theorem evaluate_error_conditions_witness :
    (([((0 : ℚ), (0 : ℚ)), (1, 1)] : List (ℚ × ℚ)).length = 2 ∨
      ([((0 : ℚ), (0 : ℚ)), (1, 1)] : List (ℚ × ℚ)).length = 3 ∨
      ([((0 : ℚ), (0 : ℚ)), (1, 1)] : List (ℚ × ℚ)).length = 4) ∧
    ∃ v, evaluate [((0 : ℚ), (0 : ℚ)), (1, 1)] 0 0 = Except.ok v :=
  ⟨Or.inl rfl,
   (evaluate_error_conditions [((0 : ℚ), (0 : ℚ)), (1, 1)] 0 0).2.1
     (Or.inl rfl)⟩

/-- Claim C8: `to_power_basis` raises the "not implemented" error naming the
degree pair exactly on unsupported node-count pairs (including the reversed
pair degree-2/degree-1), and succeeds on the four supported pairs. -/
theorem to_power_basis_error_conditions (nodes1 nodes2 : List (ℚ × ℚ)) :
    (¬((nodes1.length = 2 ∧
          (nodes2.length = 2 ∨ nodes2.length = 3 ∨ nodes2.length = 4)) ∨
        (nodes1.length = 3 ∧ nodes2.length = 3)) →
      to_power_basis nodes1 nodes2 =
        Except.error
          (unsupported_pair_message nodes1.length nodes2.length)) ∧
    (((nodes1.length = 2 ∧
          (nodes2.length = 2 ∨ nodes2.length = 3 ∨ nodes2.length = 4)) ∨
        (nodes1.length = 3 ∧ nodes2.length = 3)) →
      ∃ cs, to_power_basis nodes1 nodes2 = Except.ok cs) := by
  constructor
  · intro h
    simp only [to_power_basis]
    split_ifs with h1 h2 h3 h4 h5 h6 <;>
      first
        | rfl
        | exact absurd (by tauto) h
  · intro h
    obtain ⟨cs, hcs, _⟩ := to_power_basis_ok_of_supported nodes1 nodes2 h
    exact ⟨cs, hcs⟩

/-- Witness for C8: the reversed pair (degree 2 first, degree 1 second)
raises the error naming the degree pair. -/
theorem to_power_basis_error_conditions_witness :
    to_power_basis [((0 : ℚ), (0 : ℚ)), (1, 1), (2, 2)]
        [((0 : ℚ), (0 : ℚ)), (1, 1)] =
      Except.error (unsupported_pair_message 3 2) :=
  (to_power_basis_error_conditions [((0 : ℚ), (0 : ℚ)), (1, 1), (2, 2)]
      [((0 : ℚ), (0 : ℚ)), (1, 1)]).1 (by norm_num)

end Implicitization
